import Mathlib

/-!
Verification development for the Portfolio Advisor backend
(src/backend/main.py): a shallow embedding of the daily-summary
pipeline — the summary engine `generate_daily_summary`, the dispatcher
`send_daily_summaries`, and the renderer `format_summary_email` —
together with theorems about the claims of the specification.

Modelling conventions:
* Python floats (prices, quantities, amounts) are modelled as rationals.
* Optional / nullable fields are modelled with `Option`.
* The two outbound gateway calls made during summary generation are
  modelled by passing their outcomes as inputs.  For the opportunity
  call the summary body `assembleSummary` takes a function of the
  request data the source puts into the prompt (risk profile and
  preferred sectors) yielding the well-typed outcomes, while the full
  outcome space — a raised-and-caught failure, a parsed record list, or
  a successfully parsed JSON value that is not a list of records and
  escapes the handler unvalidated — is the type `OppCallOutcome` used
  by `generateDailySummary`.  The news call is an
  `Option (List NewsItem)` where `none` stands for a raised exception
  and `some l` for a successful reply `l`.  Exception handling present
  in the source is reproduced at the call sites where the source has
  it, and only there.
-/

/-- One horizon bucket of a recommendation set, the JSON object with keys
`action` and `reason`; either key may be absent, which `dict.get` in the
source turns into `None`. -/
structure RecEntry where
  action : Option String
  reason : Option String
deriving Repr, DecidableEq

/-- A recommendation set as stored in `HoldingDB.recommendations`: a JSON
object with the six horizon buckets of the prompt schema, any of which may
be missing.  `oneM` is the `1m` bucket, the only one the summary engine
reads. -/
structure RecommendationSet where
  oneM : Option RecEntry
  oneToSixM : Option RecEntry
  sixMToOneY : Option RecEntry
  oneToThreeY : Option RecEntry
  threeToFiveY : Option RecEntry
  fivePlus : Option RecEntry
deriving Repr, DecidableEq

/-- A holdings row (`HoldingDB`).  `recommendations = none` models both a
SQL `NULL` and an empty JSON object: both are falsy in the source's
`if holding.recommendations:` guard and neither yields an action item. -/
structure HoldingDB where
  name : String
  symbol : String
  type : String
  quantity : ℚ
  avg_price : ℚ
  current_price : Option ℚ
  sector : Option String
  recommendations : Option RecommendationSet
deriving Repr, DecidableEq

/-- A wishlist row (`WishlistDB`). -/
structure WishlistDB where
  name : String
  symbol : String
  current_price : ℚ
  target_price : ℚ
  sector : Option String
  reasoning : Option String
deriving Repr, DecidableEq

/-- A goals row (`GoalDB`). -/
structure GoalDB where
  name : String
  target_amount : ℚ
  current_amount : ℚ
  time_horizon : String
  priority : String
deriving Repr, DecidableEq

/-- A user-preferences row (`UserPreferencesDB`). -/
structure UserPreferencesDB where
  email : String
  notification_time : String
  risk_profile : String
  preferred_sectors : List String
  daily_summary_enabled : Bool
deriving Repr, DecidableEq

/-- A price-history row (`PriceHistoryDB`); the capture time is modelled
as an abstract ordinal. -/
structure PriceHistoryDB where
  symbol : String
  price : ℚ
  timestamp : ℕ
deriving Repr, DecidableEq

/-- A news item as returned by `fetch_market_news` (keys `title`,
`description`, `url`, `published_at`, `sentiment`). -/
structure NewsItem where
  title : String
  description : String
  url : String
  published_at : String
  sentiment : Option String
deriving Repr, DecidableEq

/-- An opportunity record as parsed from the opportunity gateway reply
(keys `name`, `symbol`, `sector`, `current_price`, `target_price`,
`reasoning`). -/
structure Opportunity where
  name : String
  symbol : String
  sector : String
  current_price : ℚ
  target_price : ℚ
  reasoning : String
deriving Repr, DecidableEq

/-- An action-item record of the summary (keys `type`, `symbol`, `name`,
`reason`). -/
structure ActionItem where
  type : String
  symbol : String
  name : String
  reason : String
deriving Repr, DecidableEq

/-- A watchlist-alert record of the summary (keys `symbol`, `name`,
`current_price`, `target_price`). -/
structure WatchlistAlert where
  symbol : String
  name : String
  current_price : ℚ
  target_price : ℚ
deriving Repr, DecidableEq

/-- A goal-progress record of the summary (keys `name`, `progress`,
`current`, `target`). -/
structure GoalProgressEntry where
  name : String
  progress : ℚ
  current : ℚ
  target : ℚ
deriving Repr, DecidableEq

/-- The `DailySummary` pydantic model. -/
structure DailySummary where
  date : String
  portfolio_value : ℚ
  daily_change : ℚ
  daily_change_percent : ℚ
  action_items : List ActionItem
  new_opportunities : List Opportunity
  watchlist_alerts : List WatchlistAlert
  news_digest : List NewsItem
  goal_progress : List GoalProgressEntry
deriving Repr, DecidableEq

/-- The Persistence Store contents: the table collections the summary
pipeline can see.  `generate_daily_summary` reads only `holdings`,
`goals` and `wishlist`; `price_history` and `users` are carried so that
store states can be described in full. -/
structure Store where
  holdings : List HoldingDB
  goals : List GoalDB
  wishlist : List WishlistDB
  price_history : List PriceHistoryDB
  users : List UserPreferencesDB
deriving Repr, DecidableEq

/-- Effective price of a holding, the source expression
`h.current_price or h.avg_price` (line 421).  Python `or` returns its
left operand only when it is truthy; both `None` and `0.0` are falsy, so
a missing current price and a zero current price both fall back to the
average cost. -/
def effectivePrice (h : HoldingDB) : ℚ :=
  match h.current_price with
  | none => h.avg_price
  | some p => if p = 0 then h.avg_price else p

/-- Portfolio valuation, line 421:
`sum(h.quantity * (h.current_price or h.avg_price) for h in holdings)`,
written as the accumulating fold that `sum` performs. -/
def portfolioValue (holdings : List HoldingDB) : ℚ :=
  holdings.foldl (fun acc h => acc + h.quantity * effectivePrice h) 0

/-- Yesterday's value, line 424: `portfolio_value * 0.99` (the source's
own comment calls this mock data). -/
def yesterdayValue (pv : ℚ) : ℚ := pv * (99 / 100)

/-- Daily change, line 425: `portfolio_value - yesterday_value`. -/
def dailyChange (pv : ℚ) : ℚ := pv - yesterdayValue pv

/-- Daily change percent, line 426:
`(daily_change / yesterday_value * 100) if yesterday_value > 0 else 0`. -/
def dailyChangePercent (pv : ℚ) : ℚ :=
  if yesterdayValue pv > 0 then dailyChange pv / yesterdayValue pv * 100 else 0

/-- Action items contributed by one holding, the body of the loop at
lines 430-446.  The source guard `if holding.recommendations:` skips
falsy sets (modelled by `none`); `recs.get` on a missing `1m` bucket
yields no action, and only the actions `SELL` and `BUY` emit an item,
with the reason read by `recs['1m'].get('reason', '')`. -/
def actionItemsOf (h : HoldingDB) : List ActionItem :=
  match h.recommendations with
  | none => []
  | some recs =>
    match recs.oneM with
    | none => []
    | some e =>
      if e.action = some "SELL" then
        [⟨"SELL", h.symbol, h.name, e.reason.getD ""⟩]
      else if e.action = some "BUY" then
        [⟨"BUY_MORE", h.symbol, h.name, e.reason.getD ""⟩]
      else []

/-- The action-items loop of lines 429-446: an accumulating append over
the holdings list. -/
def actionItems (holdings : List HoldingDB) : List ActionItem :=
  holdings.foldl (fun acc h => acc ++ actionItemsOf h) []

/-- The alert record built at lines 452-457. -/
def watchlistAlertOf (item : WishlistDB) : WatchlistAlert :=
  ⟨item.symbol, item.name, item.current_price, item.target_price⟩

/-- The wishlist loop of lines 449-457: an item is appended exactly when
`item.current_price <= item.target_price`. -/
def watchlistAlerts (wishlist : List WishlistDB) : List WatchlistAlert :=
  wishlist.foldl
    (fun acc item =>
      if item.current_price ≤ item.target_price then acc ++ [watchlistAlertOf item]
      else acc) []

/-- The goal-progress record built at lines 468-474:
`progress = (current / target * 100) if target > 0 else 0`. -/
def goalEntryOf (g : GoalDB) : GoalProgressEntry :=
  ⟨g.name,
   if g.target_amount > 0 then g.current_amount / g.target_amount * 100 else 0,
   g.current_amount, g.target_amount⟩

/-- The goal loop of lines 466-474. -/
def goalProgress (goals : List GoalDB) : List GoalProgressEntry :=
  goals.foldl (fun acc g => acc ++ [goalEntryOf g]) []

/-- `generate_new_opportunities` (lines 311-364) restricted to the
outcomes of its single gateway interaction in which the parsed reply is
well-typed.  The whole request-and-parse sequence sits inside one `try`
block initialised with `opportunities = []`; a failure that raises
(network error, timeout, missing response fields, reply text that is
not JSON), modelled by `none`, is caught by the bare `except`, so the
function returns the empty list rather than raising, while `some l`
models a reply parsed as the record list `l`.  This restricted form is
what `assembleSummary` consumes; the remaining outcome — `json.loads`
succeeding with a value that is not a list of record objects, which is
returned unvalidated and later aborts `generate_daily_summary` — is
modelled by `OppCallOutcome` and `generateNewOpportunitiesFull`
below. -/
def generateNewOpportunities (outcome : Option (List Opportunity)) : List Opportunity :=
  match outcome with
  | none => []
  | some parsed => parsed

/-- `fetch_market_news` (lines 298-309): a mock that ignores its
argument and always returns the one fixed item, stamped with the current
time (passed here as the ISO string `now_iso`).  It contains no fallible
call and cannot raise. -/
def fetchMarketNews (now_iso : String) : List NewsItem :=
  [⟨"Indian Markets Rally on Positive Economic Data",
    "Sensex and Nifty hit new highs",
    "https://example.com/news1",
    now_iso,
    some "positive"⟩]

/-- The body of `generate_daily_summary` (lines 414-486) given the news
list obtained from the news call: portfolio metrics, action items,
alerts, opportunities (truncated to 3) and news (truncated to 5) are
assembled into a `DailySummary`.  The user record feeds only the
opportunity call, which the source invokes as
`generate_new_opportunities(db, user)` and whose prompt depends on
`user.risk_profile` and `user.preferred_sectors`; `oppFetch` maps that
request data to the call's outcome. -/
def assembleSummary (now : String) (store : Store) (user : UserPreferencesDB)
    (oppFetch : String → List String → Option (List Opportunity))
    (news : List NewsItem) : DailySummary :=
  let pv := portfolioValue store.holdings
  { date := now
    portfolio_value := pv
    daily_change := dailyChange pv
    daily_change_percent := dailyChangePercent pv
    action_items := actionItems store.holdings
    new_opportunities :=
      (generateNewOpportunities (oppFetch user.risk_profile user.preferred_sectors)).take 3
    watchlist_alerts := watchlistAlerts store.wishlist
    news_digest := news.take 5
    goal_progress := goalProgress store.goals }

/-- The full outcome space of the gateway interaction inside
`generate_new_opportunities`.  `failed`: some step of the `try` block
raised (network error, timeout, missing response fields, reply text
that is not JSON) — caught by the bare `except`.  `parsedRecords l`:
`json.loads` succeeded and the value is a list of record objects,
parsed as `l`.  `parsedMalformed`: `json.loads` succeeded but the value
is not a list of record objects (a bare JSON object, string or number,
or a list containing non-objects) — nothing in the function validates
the parsed value, so no exception is raised here and the value travels
onward.  (Record objects carrying unexpected keys behave like
`parsedRecords` for summary generation and are not distinguished.) -/
inductive OppCallOutcome where
  | failed : OppCallOutcome
  | parsedRecords : List Opportunity → OppCallOutcome
  | parsedMalformed : OppCallOutcome
deriving Repr, DecidableEq

/-- The Python value `generate_new_opportunities` hands back to its
caller: either a genuine list of opportunity records (which includes
the initial `[]` returned after a caught failure) or the unvalidated
non-record-list JSON value of a malformed parse. -/
inductive OppReturnValue where
  | records : List Opportunity → OppReturnValue
  | malformed : OppReturnValue
deriving Repr, DecidableEq

/-- `generate_new_opportunities` (lines 311-364) over its full outcome
space: a raised-and-caught failure returns the initial `[]`, a parsed
record list is returned as such, and a successfully parsed value of any
other shape is returned as-is, unvalidated.  `generateNewOpportunities`
above is the restriction of this function to the first two cases. -/
def generateNewOpportunitiesFull (outcome : OppCallOutcome) : OppReturnValue :=
  match outcome with
  | OppCallOutcome.failed => OppReturnValue.records []
  | OppCallOutcome.parsedRecords l => OppReturnValue.records l
  | OppCallOutcome.parsedMalformed => OppReturnValue.malformed

/-- `generate_daily_summary` (lines 414-486) over the full outcome
spaces of both outbound calls.  The call
`news_digest = await fetch_market_news()` at line 463 has no
surrounding `try`/`except`, so a news call that raises (outcome `none`)
propagates and no summary is produced — the in-repo news gateway
`fetchMarketNews` is an infallible mock, so in the code as written that
outcome is always `some (fetchMarketNews now)`.  A malformed
opportunity value aborts the function as well, after the news call: the
slice `new_opportunities[:3]` at line 482 raises `TypeError` on a
non-list value, and the `DailySummary` construction rejects a list of
non-record elements.  Only when the news call returns a list and the
opportunity value is a record list is the summary of `assembleSummary`
produced, with exactly that record list as the opportunity outcome. -/
def generateDailySummary (now : String) (store : Store) (user : UserPreferencesDB)
    (oppOutcome : OppCallOutcome)
    (newsOutcome : Option (List NewsItem)) : Option DailySummary :=
  match newsOutcome with
  | none => none
  | some news =>
    match generateNewOpportunitiesFull oppOutcome with
    | OppReturnValue.malformed => none
    | OppReturnValue.records l =>
      some (assembleSummary now store user (fun _ _ => some l) news)

/-- The summary computation exactly as the repository runs it: the news
call is the in-repo mock `fetchMarketNews`, which always succeeds. -/
def dailySummaryRun (now : String) (store : Store) (user : UserPreferencesDB)
    (oppFetch : String → List String → Option (List Opportunity)) : DailySummary :=
  assembleSummary now store user oppFetch (fetchMarketNews now)

/-- Outcome record of one iteration of the dispatcher loop: the user's
email together with `none` on success or the recorded error message on
failure.  The loop body (lines 405-410) computes, renders and sends the
summary inside a `try` whose `except` prints the failure; `attempt`
maps a user to the outcome of that body. -/
def dispatchOutcome (attempt : UserPreferencesDB → Except String Unit)
    (u : UserPreferencesDB) : String × Option String :=
  match attempt u with
  | Except.ok _ => (u.email, none)
  | Except.error e => (u.email, some e)

/-- `send_daily_summaries` (lines 396-412): query the users with
`daily_summary_enabled` and run the guarded loop body for each, in
order.  Because every failure is caught inside the loop, the traversal
itself never stops early; the result is the trace of per-user
outcomes. -/
def sendDailySummaries (users : List UserPreferencesDB)
    (attempt : UserPreferencesDB → Except String Unit) : List (String × Option String) :=
  (users.filter (fun u => u.daily_summary_enabled)).foldl
    (fun log u => log ++ [dispatchOutcome attempt u]) []

/-- Rendering of one rational number inside the email.  The source uses
Python numeric formatting (`:,.2f`, `:.2f`, `:.1f`, `:,.0f`, `str`);
the digit strings themselves are not part of any verified claim, so all
of them are abstracted by Lean's rational rendering. -/
def fmtQ (q : ℚ) : String := toString q

/-- One action-item `div` of the email (line 519). -/
def renderActionItem (item : ActionItem) : String :=
  "<div class=\"action-item\"><strong>" ++ item.type ++ ":</strong> " ++ item.name ++
    " (" ++ item.symbol ++ ")<br/><em>" ++ item.reason ++ "</em></div>"

/-- The action-items block (line 519): the joined item divs when the
list is truthy, else the placeholder paragraph. -/
def actionItemsBlock (s : DailySummary) : String :=
  if s.action_items = [] then "<p>No immediate actions required.</p>"
  else String.join (s.action_items.map renderActionItem)

/-- One opportunity `div` of the email (line 524). -/
def renderOpportunity (opp : Opportunity) : String :=
  "<div class=\"action-item\"><strong>" ++ opp.name ++ " (" ++ opp.symbol ++
    ")</strong><br/>Sector: " ++ opp.sector ++ "<br/>Current: â‚¹" ++
    fmtQ opp.current_price ++ " â†’ Target: â‚¹" ++ fmtQ opp.target_price ++
    "<br/><em>" ++ opp.reasoning ++ "</em></div>"

/-- The opportunities block (line 524). -/
def opportunitiesBlock (s : DailySummary) : String :=
  if s.new_opportunities = [] then "<p>No new opportunities identified.</p>"
  else String.join (s.new_opportunities.map renderOpportunity)

/-- One watchlist-alert `div` of the email (line 529). -/
def renderAlert (alert : WatchlistAlert) : String :=
  "<div class=\"action-item\"><strong>" ++ alert.name ++ " (" ++ alert.symbol ++
    ")</strong><br/>Current: â‚¹" ++ fmtQ alert.current_price ++ " | Target: â‚¹" ++
    fmtQ alert.target_price ++
    "<br/><em>âœ… Below target price - Good entry point!</em></div>"

/-- The watchlist block (line 529). -/
def alertsBlock (s : DailySummary) : String :=
  if s.watchlist_alerts = [] then "<p>No watchlist alerts today.</p>"
  else String.join (s.watchlist_alerts.map renderAlert)

/-- One news `div` of the email (line 534). -/
def renderNews (n : NewsItem) : String :=
  "<div class=\"action-item\"><strong>" ++ n.title ++ "</strong><br/>" ++
    n.description ++ "</div>"

/-- The news block (line 534): the join over the first three digest
items.  Unlike every other block this interpolation has no `else`
branch, so an empty digest renders as the empty string, not as a
placeholder paragraph. -/
def newsBlock (s : DailySummary) : String :=
  String.join ((s.news_digest.take 3).map renderNews)

/-- One goal `div` of the email (line 539). -/
def renderGoal (g : GoalProgressEntry) : String :=
  "<div class=\"action-item\"><strong>" ++ g.name ++ "</strong><br/>Progress: " ++
    fmtQ g.progress ++ "% (â‚¹" ++ fmtQ g.current ++ " / â‚¹" ++ fmtQ g.target ++
    ")</div>"

/-- The goal-progress block (line 539). -/
def goalsBlock (s : DailySummary) : String :=
  if s.goal_progress = [] then "<p>No goals set yet.</p>"
  else String.join (s.goal_progress.map renderGoal)

/-- The fixed prelude of the email template up to the date
interpolation (lines 490-505): document head, styles, banner.  Literal
braces of the CSS (doubled in the Python f-string) are written as
escapes. -/
def emailHead : String :=
  "\n    <html>\n    <head>\n        <style>\n            body \x7b font-family: Arial, sans-serif; line-height: 1.6; color: #333; \x7d\n            .header \x7b background-color: #4F46E5; color: white; padding: 20px; \x7d\n            .section \x7b margin: 20px 0; padding: 15px; background-color: #f9f9f9; border-radius: 5px; \x7d\n            .positive \x7b color: #10B981; \x7d\n            .negative \x7b color: #EF4444; \x7d\n            .action-item \x7b padding: 10px; margin: 5px 0; background-color: white; border-left: 4px solid #4F46E5; \x7d\n        </style>\n    </head>\n    <body>\n        <div class=\"header\">\n            <h1>ðŸ“Š Your Daily Portfolio Summary</h1>\n            <p>"

/-- The template text between the date and the first section header
(lines 505-509). -/
def emailAfterDate : String :=
  "</p>\n        </div>\n        \n        <div class=\"section\">\n            "

/-- The template text that closes one section and opens the next
(recurring between lines 515 and 538). -/
def sectionSep : String :=
  "\n        </div>\n        \n        <div class=\"section\">\n            "

/-- The template text closing the document (lines 540-543). -/
def emailTail : String :=
  "\n        </div>\n    </body>\n    </html>\n    "

/-- Section header of the portfolio overview (line 509). -/
def hdrOverview : String := "<h2>Portfolio Overview</h2>"

/-- Section header of the action items (line 518). -/
def hdrActionItems : String := "<h2>ðŸŽ¯ Action Items</h2>"

/-- Section header of the opportunities (line 523). -/
def hdrOpportunities : String := "<h2>ðŸ’¡ New Opportunities</h2>"

/-- Section header of the watchlist alerts (line 528). -/
def hdrAlerts : String := "<h2>ðŸ”” Watchlist Alerts</h2>"

/-- Section header of the news digest (line 533). -/
def hdrNews : String := "<h2>ðŸ“° Market News</h2>"

/-- Section header of the goal progress (line 538). -/
def hdrGoals : String := "<h2>ðŸŽ¯ Goal Progress</h2>"

/-- The overview body (lines 510-514): total value, then the change
line whose css class and arrow both test `daily_change >= 0`. -/
def overviewBody (s : DailySummary) : String :=
  "\n            <p><strong>Total Value:</strong> â‚¹" ++ fmtQ s.portfolio_value ++
    "</p>\n            <p class=\"" ++
    (if s.daily_change ≥ 0 then "positive" else "negative") ++
    "\">\n                <strong>Daily Change:</strong> " ++
    (if s.daily_change ≥ 0 then "â–²" else "â–¼") ++
    " \n                â‚¹" ++ fmtQ |s.daily_change| ++ " (" ++
    fmtQ s.daily_change_percent ++ "%)\n            </p>"

/-- `format_summary_email` (lines 488-544): the full template as the
concatenation of its literal chunks and interpolated blocks, in the
order they occur in the f-string. -/
def formatSummaryEmail (s : DailySummary) : String :=
  emailHead ++ s.date ++ emailAfterDate ++
    hdrOverview ++ overviewBody s ++ sectionSep ++
    hdrActionItems ++ "\n            " ++ actionItemsBlock s ++ sectionSep ++
    hdrOpportunities ++ "\n            " ++ opportunitiesBlock s ++ sectionSep ++
    hdrAlerts ++ "\n            " ++ alertsBlock s ++ sectionSep ++
    hdrNews ++ "\n            " ++ newsBlock s ++ sectionSep ++
    hdrGoals ++ "\n            " ++ goalsBlock s ++ emailTail

/-- The claim C1 reads the valuation rule with `present` meaning
`not None`; this definition follows those words so that it can be
compared with the source's `or`-based fallback. -/
def portfolioValueAsSpecified (holdings : List HoldingDB) : ℚ :=
  (holdings.map (fun h => h.quantity * h.current_price.getD h.avg_price)).sum

/-- Sample recommendation entry with a 1-month SELL. -/
def sampleEntrySell : RecEntry := ⟨some "SELL", some "Overvalued near term"⟩

/-- Sample recommendation set whose only bucket is the SELL entry. -/
def sampleRecsSell : RecommendationSet := ⟨some sampleEntrySell, none, none, none, none, none⟩

/-- Sample holding carrying the SELL recommendation. -/
def sampleHoldingSell : HoldingDB :=
  ⟨"Tata Consultancy", "TCS", "stock", 10, 100, some 120, none, some sampleRecsSell⟩

/-- Sample recommendation entry with a 1-month BUY. -/
def sampleEntryBuy : RecEntry := ⟨some "BUY", some "Momentum intact"⟩

/-- Sample recommendation set whose only bucket is the BUY entry. -/
def sampleRecsBuy : RecommendationSet := ⟨some sampleEntryBuy, none, none, none, none, none⟩

/-- Sample holding carrying the BUY recommendation. -/
def sampleHoldingBuy : HoldingDB :=
  ⟨"Infosys", "INFY", "stock", 5, 80, some 90, none, some sampleRecsBuy⟩

/-- Sample recommendation entry with a 1-month HOLD. -/
def sampleEntryHold : RecEntry := ⟨some "HOLD", some "Fairly valued"⟩

/-- Sample recommendation set whose only bucket is the HOLD entry. -/
def sampleRecsHold : RecommendationSet := ⟨some sampleEntryHold, none, none, none, none, none⟩

/-- Sample holding carrying the HOLD recommendation. -/
def sampleHoldingHold : HoldingDB :=
  ⟨"HDFC Bank", "HDFCBANK", "stock", 2, 60, some 70, none, some sampleRecsHold⟩

/-- Holding whose current price is present but equal to zero. -/
def zeroPriceHolding : HoldingDB := ⟨"Zed Corp", "ZED", "stock", 1, 50, some 0, none, none⟩

/-- Holding with no recommendations, quantity 10, price 100. -/
def plainHolding : HoldingDB := ⟨"Wipro", "WIPRO", "stock", 10, 100, some 100, none, none⟩

/-- Goal with a positive target: 250 of 1000. -/
def sampleGoal : GoalDB := ⟨"Retirement", 1000, 250, "5y+", "high"⟩

/-- Goal with target amount zero. -/
def zeroTargetGoal : GoalDB := ⟨"Rainy day", 0, 250, "1m", "low"⟩

/-- Wishlist item whose current price equals its target price. -/
def sampleWishEqual : WishlistDB := ⟨"Asian Paints", "ASIANPAINT", 60, 60, none, none⟩

/-- User with daily summaries enabled, moderate risk profile. -/
def sampleUser : UserPreferencesDB := ⟨"a@example.com", "08:00", "moderate", [], true⟩

/-- Second enabled user with a different risk profile and sectors. -/
def sampleUserB : UserPreferencesDB := ⟨"b@example.com", "09:00", "aggressive", ["IT"], true⟩

/-- User with daily summaries disabled. -/
def sampleUserOff : UserPreferencesDB := ⟨"c@example.com", "08:00", "conservative", [], false⟩

/-- Store with every collection empty. -/
def emptyStore : Store := ⟨[], [], [], [], []⟩

/-- Store with one holding worth 1000 and an empty price history, so no
historical portfolio-value baseline exists. -/
def baselineFreeStore : Store := ⟨[plainHolding], [], [], [], []⟩

/-- Store whose single holding has a present-but-zero current price. -/
def zeroPriceStore : Store := ⟨[zeroPriceHolding], [], [], [], []⟩

/-- Store used to exercise the action-item cases, holdings in the order
SELL, HOLD, BUY. -/
def actionStore : Store :=
  ⟨[sampleHoldingSell, sampleHoldingHold, sampleHoldingBuy], [], [], [], []⟩

/-- Store holding only the boundary wishlist item. -/
def storeW1 : Store := ⟨[], [], [sampleWishEqual], [], []⟩

/-- Store with the same wishlist as `storeW1` but different holdings,
goals, history and users. -/
def storeW2 : Store :=
  ⟨[plainHolding], [sampleGoal], [sampleWishEqual], [⟨"WIPRO", 99, 0⟩], [sampleUser]⟩

/-- Opportunity-gateway outcome standing for a failed call. -/
def oppFetchFail : String → List String → Option (List Opportunity) := fun _ _ => none

/-- A concrete opportunity record. -/
def sampleOpportunity : Opportunity :=
  ⟨"Larsen Toubro", "LT", "Capital Goods", 300, 350, "Strong order book"⟩

/-- Opportunity gateway whose reply depends on the risk profile in the
request: the moderate profile gets one suggestion, every other profile a
failed call. -/
def oppFetchByProfile : String → List String → Option (List Opportunity) :=
  fun rp _ => if rp = "moderate" then some [sampleOpportunity] else none

/-- Dispatch attempt that fails exactly for the user `b@example.com`. -/
def attemptFailB : UserPreferencesDB → Except String Unit :=
  fun u => if u.email = "b@example.com" then Except.error "smtp down" else Except.ok ()

/-- A summary whose list sections are all empty. -/
def emptySummary : DailySummary := ⟨"2025-01-01", 0, 0, 0, [], [], [], [], []⟩

/-! Helper lemmas shared by several claims: the accumulating folds of
the source loops rewritten as maps, filters and flat-maps. -/

theorem foldl_append_singleton_eq_map {α β : Type} (f : α → β) (l : List α) (acc : List β) :
    l.foldl (fun a x => a ++ [f x]) acc = acc ++ l.map f := by
  induction l generalizing acc with
  | nil => simp
  | cons x xs ih => simp [ih]

theorem foldl_append_eq_flatMap {α β : Type} (f : α → List β) (l : List α) (acc : List β) :
    l.foldl (fun a x => a ++ f x) acc = acc ++ l.flatMap f := by
  induction l generalizing acc with
  | nil => simp
  | cons x xs ih => simp [ih]

theorem foldl_add_eq_sum {α : Type} (f : α → ℚ) (l : List α) (acc : ℚ) :
    l.foldl (fun a x => a + f x) acc = acc + (l.map f).sum := by
  induction l generalizing acc with
  | nil => simp
  | cons x xs ih => simp [ih]; ring

theorem portfolioValue_eq_sum (holdings : List HoldingDB) :
    portfolioValue holdings = (holdings.map (fun h => h.quantity * effectivePrice h)).sum := by
  simpa [portfolioValue] using
    foldl_add_eq_sum (fun h => h.quantity * effectivePrice h) holdings 0

theorem actionItems_eq_flatMap (holdings : List HoldingDB) :
    actionItems holdings = holdings.flatMap actionItemsOf := by
  simpa [actionItems] using foldl_append_eq_flatMap actionItemsOf holdings []

theorem watchlistAlerts_eq_filter_map (ws : List WishlistDB) :
    watchlistAlerts ws
      = (ws.filter (fun i => decide (i.current_price ≤ i.target_price))).map watchlistAlertOf := by
  have aux : ∀ (l : List WishlistDB) (acc : List WatchlistAlert),
      l.foldl (fun acc item =>
        if item.current_price ≤ item.target_price then acc ++ [watchlistAlertOf item]
        else acc) acc
        = acc ++ (l.filter (fun i => decide (i.current_price ≤ i.target_price))).map watchlistAlertOf := by
    intro l
    induction l with
    | nil => intro acc; simp
    | cons x xs ih =>
      intro acc
      by_cases h : x.current_price ≤ x.target_price
      · simp [h, ih, List.filter_cons]
      · simp [h, ih, List.filter_cons]
  simpa [watchlistAlerts] using aux ws []

theorem goalProgress_eq_map (goals : List GoalDB) :
    goalProgress goals = goals.map goalEntryOf := by
  simpa [goalProgress] using foldl_append_singleton_eq_map goalEntryOf goals []

theorem sendDailySummaries_eq_map (users : List UserPreferencesDB)
    (attempt : UserPreferencesDB → Except String Unit) :
    sendDailySummaries users attempt
      = (users.filter (fun u => u.daily_summary_enabled)).map (dispatchOutcome attempt) := by
  simpa [sendDailySummaries] using
    foldl_append_singleton_eq_map (dispatchOutcome attempt)
      (users.filter (fun u => u.daily_summary_enabled)) []

/-- Claim C1, counterexample.  The claim computes with the current price
whenever it is present; the source expression
`h.current_price or h.avg_price` instead falls back to the average cost
when the current price is `0.0`, because `0.0` is falsy in Python.  For
the holding with quantity 1, average cost 50 and current price 0 the
claim demands portfolio value 1 * 0 = 0, while the code reports 50. -/
theorem c1_portfolio_value_zero_price_cex :
    (dailySummaryRun "2025-10-08" zeroPriceStore sampleUser oppFetchFail).portfolio_value = 50
    ∧ portfolioValueAsSpecified zeroPriceStore.holdings = 0
    ∧ (dailySummaryRun "2025-10-08" zeroPriceStore sampleUser oppFetchFail).portfolio_value
        ≠ portfolioValueAsSpecified zeroPriceStore.holdings := by
  have h1 : (dailySummaryRun "2025-10-08" zeroPriceStore sampleUser oppFetchFail).portfolio_value
      = portfolioValue [zeroPriceHolding] := rfl
  have h2 : portfolioValue [zeroPriceHolding] = 50 := by
    norm_num [portfolioValue, effectivePrice, zeroPriceHolding]
  have h3 : portfolioValueAsSpecified zeroPriceStore.holdings = 0 := by
    norm_num [portfolioValueAsSpecified, zeroPriceStore, zeroPriceHolding]
  refine ⟨h1.trans h2, h3, ?_⟩
  rw [h1, h2, h3]
  norm_num

/-- Claim C1, amended: the portfolio value of the daily summary is the
sum over all holdings of quantity times the effective price, where the
effective price is the current price when it is present and nonzero and
the average cost otherwise (a present-but-zero current price falls back
to the average cost); the value of an empty holdings list is 0. -/
theorem c1_portfolio_value_amended :
    ∀ (now : String) (store : Store) (user : UserPreferencesDB)
      (oppFetch : String → List String → Option (List Opportunity))
      (gs : List GoalDB) (ws : List WishlistDB) (ph : List PriceHistoryDB)
      (us : List UserPreferencesDB),
      ((dailySummaryRun now store user oppFetch).portfolio_value
          = (store.holdings.map (fun h => h.quantity * effectivePrice h)).sum)
      ∧ (dailySummaryRun now ⟨[], gs, ws, ph, us⟩ user oppFetch).portfolio_value = 0
      ∧ (∀ h : HoldingDB, h.current_price = none → effectivePrice h = h.avg_price)
      ∧ (∀ (h : HoldingDB) (p : ℚ), h.current_price = some p → p ≠ 0 → effectivePrice h = p)
      ∧ (∀ h : HoldingDB, h.current_price = some 0 → effectivePrice h = h.avg_price) := by
  intro now store user oppFetch gs ws ph us
  refine ⟨?_, ?_, ?_, ?_, ?_⟩
  · exact portfolioValue_eq_sum store.holdings
  · rfl
  · intro h hc; simp [effectivePrice, hc]
  · intro h p hc hp; simp [effectivePrice, hc, hp]
  · intro h hc; simp [effectivePrice, hc]

/-- Claim C1, witness: the amended theorem applied to the zero-price
holding and to a holding with a nonzero current price. -/
theorem c1_portfolio_value_amended_witness :
    effectivePrice zeroPriceHolding = zeroPriceHolding.avg_price
    ∧ effectivePrice sampleHoldingSell = 120 := by
  constructor
  · exact (c1_portfolio_value_amended "d" emptyStore sampleUser oppFetchFail
      [] [] [] []).2.2.2.2 zeroPriceHolding rfl
  · exact (c1_portfolio_value_amended "d" emptyStore sampleUser oppFetchFail
      [] [] [] []).2.2.2.1 sampleHoldingSell 120 rfl (by norm_num)

/-- Claim C2, evaluation at the failing input.  With one holding worth
1000 and an empty price history (so no historical baseline exists at
all), the code still reports a daily change of 10 and a percent change
of 100/99: lines 424-426 manufacture yesterday's value as a fixed 1%
markdown of today's value — flagged as mock data by the source's own
comment — instead of reporting 0 as the claim requires. -/
theorem c2_daily_change_placeholder_eval :
    baselineFreeStore.price_history = []
    ∧ (dailySummaryRun "2025-10-08" baselineFreeStore sampleUser oppFetchFail).daily_change = 10
    ∧ (dailySummaryRun "2025-10-08" baselineFreeStore sampleUser oppFetchFail).daily_change_percent
        = 100 / 99
    ∧ (dailySummaryRun "2025-10-08" baselineFreeStore sampleUser oppFetchFail).daily_change ≠ 0 := by
  have hpv : portfolioValue baselineFreeStore.holdings = 1000 := by
    norm_num [portfolioValue, effectivePrice, baselineFreeStore, plainHolding]
  have h1 : (dailySummaryRun "2025-10-08" baselineFreeStore sampleUser oppFetchFail).daily_change
      = dailyChange (portfolioValue baselineFreeStore.holdings) := rfl
  have h2 : (dailySummaryRun "2025-10-08" baselineFreeStore sampleUser
      oppFetchFail).daily_change_percent
      = dailyChangePercent (portfolioValue baselineFreeStore.holdings) := rfl
  have hchange : dailyChange 1000 = 10 := by
    norm_num [dailyChange, yesterdayValue]
  have hpct : dailyChangePercent 1000 = 100 / 99 := by
    norm_num [dailyChangePercent, dailyChange, yesterdayValue]
  refine ⟨rfl, ?_, ?_, ?_⟩
  · rw [h1, hpv, hchange]
  · rw [h2, hpv, hpct]
  · rw [h1, hpv, hchange]; norm_num

/-- Claim C3: action items of the daily summary.  The action-item list
is the ordered concatenation, in holdings-list order, of each holding's
contribution; a populated recommendation set whose 1-month action is
SELL contributes exactly the one SELL item, BUY exactly the one
BUY_MORE item (both carrying the 1-month reason text verbatim, the
empty string when no reason is recorded), and HOLD, a missing 1-month
bucket, or an absent recommendation set contributes nothing. -/
theorem c3_action_items :
    ∀ (now : String) (store : Store) (user : UserPreferencesDB)
      (oppFetch : String → List String → Option (List Opportunity))
      (holdings : List HoldingDB),
      (actionItems holdings = holdings.flatMap actionItemsOf)
      ∧ ((dailySummaryRun now store user oppFetch).action_items
          = store.holdings.flatMap actionItemsOf)
      ∧ (∀ (h : HoldingDB) (r : RecommendationSet) (e : RecEntry),
          h.recommendations = some r → r.oneM = some e →
            (e.action = some "SELL" →
              actionItemsOf h = [⟨"SELL", h.symbol, h.name, e.reason.getD ""⟩])
            ∧ (e.action = some "BUY" →
              actionItemsOf h = [⟨"BUY_MORE", h.symbol, h.name, e.reason.getD ""⟩])
            ∧ (∀ t : String, e.action = some "SELL" → e.reason = some t →
              actionItemsOf h = [⟨"SELL", h.symbol, h.name, t⟩])
            ∧ (e.action = some "HOLD" → actionItemsOf h = []))
      ∧ (∀ (h : HoldingDB) (r : RecommendationSet),
          h.recommendations = some r → r.oneM = none → actionItemsOf h = [])
      ∧ (∀ h : HoldingDB, h.recommendations = none → actionItemsOf h = []) := by
  intro now store user oppFetch holdings
  refine ⟨actionItems_eq_flatMap holdings, ?_, ?_, ?_, ?_⟩
  · exact actionItems_eq_flatMap store.holdings
  · intro h r e hrec hone
    refine ⟨?_, ?_, ?_, ?_⟩
    · intro ha; simp [actionItemsOf, hrec, hone, ha]
    · intro ha; simp [actionItemsOf, hrec, hone, ha]
    · intro t ha ht; simp [actionItemsOf, hrec, hone, ha, ht]
    · intro ha; simp [actionItemsOf, hrec, hone, ha]
  · intro h r hrec hone; simp [actionItemsOf, hrec, hone]
  · intro h hrec; simp [actionItemsOf, hrec]

/-- Claim C3, witness: the theorem applied to the SELL, BUY and HOLD
sample holdings, and to the three-holding store, showing one SELL item,
one BUY_MORE item, verbatim reasons, and holdings order. -/
theorem c3_action_items_witness :
    actionItemsOf sampleHoldingSell
        = [⟨"SELL", "TCS", "Tata Consultancy", "Overvalued near term"⟩]
    ∧ actionItemsOf sampleHoldingBuy = [⟨"BUY_MORE", "INFY", "Infosys", "Momentum intact"⟩]
    ∧ actionItemsOf sampleHoldingHold = []
    ∧ (dailySummaryRun "2025-10-08" actionStore sampleUser oppFetchFail).action_items
        = [⟨"SELL", "TCS", "Tata Consultancy", "Overvalued near term"⟩,
           ⟨"BUY_MORE", "INFY", "Infosys", "Momentum intact"⟩] := by
  have base := c3_action_items "2025-10-08" actionStore sampleUser oppFetchFail []
  have hsell : actionItemsOf sampleHoldingSell
      = [⟨"SELL", "TCS", "Tata Consultancy", "Overvalued near term"⟩] := by
    have := (base.2.2.1 sampleHoldingSell sampleRecsSell sampleEntrySell rfl rfl).2.2.1
      "Overvalued near term" rfl rfl
    simpa [sampleHoldingSell] using this
  have hbuy : actionItemsOf sampleHoldingBuy
      = [⟨"BUY_MORE", "INFY", "Infosys", "Momentum intact"⟩] := by
    have := (base.2.2.1 sampleHoldingBuy sampleRecsBuy sampleEntryBuy rfl rfl).2.1 rfl
    simpa [sampleHoldingBuy, sampleEntryBuy] using this
  have hhold : actionItemsOf sampleHoldingHold = [] := by
    have := (base.2.2.1 sampleHoldingHold sampleRecsHold sampleEntryHold rfl rfl).2.2.2 rfl
    simpa using this
  refine ⟨hsell, hbuy, hhold, ?_⟩
  rw [base.2.1]
  simp [actionStore, hsell, hbuy, hhold]

/-- Claim C4: a wishlist item produces a watchlist alert (carrying
symbol, name, current price and target price) exactly when its current
price is at most its target price — the boundary case of equality does
alert — and the alert list is a pure function of the wishlist alone, so
re-running the engine on an unchanged wishlist reissues the same
alerts. -/
theorem c4_watchlist_alerts :
    ∀ (now : String) (store store2 : Store) (user : UserPreferencesDB)
      (oppFetch : String → List String → Option (List Opportunity)) (i : WishlistDB),
      ((dailySummaryRun now store user oppFetch).watchlist_alerts
          = (store.wishlist.filter
              (fun j => decide (j.current_price ≤ j.target_price))).map watchlistAlertOf)
      ∧ (watchlistAlerts [i]
          = if i.current_price ≤ i.target_price then [watchlistAlertOf i] else [])
      ∧ (store2.wishlist = store.wishlist →
          (dailySummaryRun now store2 user oppFetch).watchlist_alerts
            = (dailySummaryRun now store user oppFetch).watchlist_alerts) := by
  intro now store store2 user oppFetch i
  refine ⟨watchlistAlerts_eq_filter_map store.wishlist, ?_, ?_⟩
  · by_cases h : i.current_price ≤ i.target_price
    · simp [watchlistAlerts, h]
    · simp [watchlistAlerts, h]
  · intro hw
    show watchlistAlerts store2.wishlist = watchlistAlerts store.wishlist
    rw [hw]

/-- Claim C4, witness: the boundary item with current price equal to
target price does alert, and two stores sharing a wishlist but
differing in every other collection produce the same alerts. -/
theorem c4_watchlist_alerts_witness :
    watchlistAlerts [sampleWishEqual] = [watchlistAlertOf sampleWishEqual]
    ∧ (dailySummaryRun "2025-10-08" storeW2 sampleUser oppFetchFail).watchlist_alerts
        = (dailySummaryRun "2025-10-08" storeW1 sampleUser oppFetchFail).watchlist_alerts := by
  constructor
  · have := (c4_watchlist_alerts "2025-10-08" storeW1 storeW1 sampleUser oppFetchFail
      sampleWishEqual).2.1
    simpa [sampleWishEqual] using this
  · exact (c4_watchlist_alerts "2025-10-08" storeW1 storeW2 sampleUser oppFetchFail
      sampleWishEqual).2.2 rfl

/-- Claim C5, counterexample.  The claim asserts that every outcome of
the opportunity-generation call and of the news call — explicitly
including a malformed response — leaves summary generation intact.
Both halves fail on a concrete outcome.  First, the bare `except` of
`generate_new_opportunities` only catches what raises inside the `try`:
a reply that parses as valid JSON without being a list of record
objects is returned unvalidated, and `generate_daily_summary` then
aborts when line 482 slices it (`TypeError` on a non-list value;
a list of non-record elements is instead rejected by the
`DailySummary` construction) — it does not produce a report with an
empty opportunities list.  Second, the unguarded news call at line 463
would likewise abort generation if it raised. -/
theorem c5_malformed_reply_aborts_cex :
    generateDailySummary "2025-10-08" emptyStore sampleUser
        OppCallOutcome.parsedMalformed (some (fetchMarketNews "2025-10-08")) = none
    ∧ generateDailySummary "2025-10-08" emptyStore sampleUser
        (OppCallOutcome.parsedRecords []) none = none :=
  ⟨rfl, rfl⟩

/-- Claim C5, amended: an opportunity call whose failure raises inside
the `try` block of `generate_new_opportunities` (network error,
timeout, missing response fields, reply text that is not JSON) is
caught there and degrades gracefully: summary generation succeeds, the
opportunities section is the empty list, and every other section is
exactly what it would be under any successfully parsed record list.
The handler does not make generation total, however: a reply that
parses as valid JSON without being a list of record objects escapes the
`except` and aborts `generate_daily_summary` at the truncation of line
482, and a raising news call would abort it at line 463 (the in-repo
news gateway is an infallible mock, so only the opportunity path is
reachable in practice). -/
theorem c5_opportunity_failure_degrades_amended :
    ∀ (now : String) (store : Store) (user : UserPreferencesDB)
      (news : List NewsItem) (l : List Opportunity),
      ((generateDailySummary now store user OppCallOutcome.failed (some news)).isSome)
      ∧ ((generateDailySummary now store user OppCallOutcome.failed (some news)).map
          (fun s => s.new_opportunities) = some [])
      ∧ ((generateDailySummary now store user (OppCallOutcome.parsedRecords l)
          (some news)).isSome)
      ∧ ((generateDailySummary now store user OppCallOutcome.failed (some news)).map
            (fun s => s.date)
          = (generateDailySummary now store user (OppCallOutcome.parsedRecords l)
              (some news)).map (fun s => s.date)
        ∧ (generateDailySummary now store user OppCallOutcome.failed (some news)).map
            (fun s => s.portfolio_value)
          = (generateDailySummary now store user (OppCallOutcome.parsedRecords l)
              (some news)).map (fun s => s.portfolio_value)
        ∧ (generateDailySummary now store user OppCallOutcome.failed (some news)).map
            (fun s => s.daily_change)
          = (generateDailySummary now store user (OppCallOutcome.parsedRecords l)
              (some news)).map (fun s => s.daily_change)
        ∧ (generateDailySummary now store user OppCallOutcome.failed (some news)).map
            (fun s => s.daily_change_percent)
          = (generateDailySummary now store user (OppCallOutcome.parsedRecords l)
              (some news)).map (fun s => s.daily_change_percent)
        ∧ (generateDailySummary now store user OppCallOutcome.failed (some news)).map
            (fun s => s.action_items)
          = (generateDailySummary now store user (OppCallOutcome.parsedRecords l)
              (some news)).map (fun s => s.action_items)
        ∧ (generateDailySummary now store user OppCallOutcome.failed (some news)).map
            (fun s => s.watchlist_alerts)
          = (generateDailySummary now store user (OppCallOutcome.parsedRecords l)
              (some news)).map (fun s => s.watchlist_alerts)
        ∧ (generateDailySummary now store user OppCallOutcome.failed (some news)).map
            (fun s => s.news_digest)
          = (generateDailySummary now store user (OppCallOutcome.parsedRecords l)
              (some news)).map (fun s => s.news_digest)
        ∧ (generateDailySummary now store user OppCallOutcome.failed (some news)).map
            (fun s => s.goal_progress)
          = (generateDailySummary now store user (OppCallOutcome.parsedRecords l)
              (some news)).map (fun s => s.goal_progress))
      ∧ (generateDailySummary now store user OppCallOutcome.parsedMalformed (some news)
          = none)
      ∧ (∀ o : OppCallOutcome, generateDailySummary now store user o none = none) := by
  intro now store user news l
  exact ⟨rfl, rfl, rfl, ⟨rfl, rfl, rfl, rfl, rfl, rfl, rfl, rfl⟩, rfl, fun o => rfl⟩

/-- Claim C6: whatever lists the opportunity gateway and the news
gateway return, the summary keeps at most 3 opportunities and at most 5
news items, each time the first entries of the returned list in the
returned order. -/
theorem c6_truncation :
    ∀ (now : String) (store : Store) (user : UserPreferencesDB)
      (opps : List Opportunity) (news : List NewsItem),
      ((assembleSummary now store user (fun _ _ => some opps) news).new_opportunities
          = opps.take 3)
      ∧ ((assembleSummary now store user (fun _ _ => some opps) news).new_opportunities.length
          ≤ 3)
      ∧ ((assembleSummary now store user (fun _ _ => some opps) news).news_digest
          = news.take 5)
      ∧ ((assembleSummary now store user (fun _ _ => some opps) news).news_digest.length
          ≤ 5) := by
  intro now store user opps news
  refine ⟨rfl, ?_, rfl, ?_⟩
  · show (opps.take 3).length ≤ 3
    exact List.length_take_le 3 opps
  · show (news.take 5).length ≤ 5
    exact List.length_take_le 5 news

/-- Claim C7: the goal-progress section has exactly one entry per goal,
in goal-list order, carrying the goal's name, current amount and target
amount; the progress is current / target * 100 whenever the target is
positive and 0 when the target is 0, the division being guarded by the
`target > 0` test so that no division fault can occur. -/
theorem c7_goal_progress :
    ∀ (now : String) (store : Store) (user : UserPreferencesDB)
      (oppFetch : String → List String → Option (List Opportunity)) (g : GoalDB),
      ((dailySummaryRun now store user oppFetch).goal_progress = store.goals.map goalEntryOf)
      ∧ ((dailySummaryRun now store user oppFetch).goal_progress.length = store.goals.length)
      ∧ (g.target_amount > 0 →
          (goalEntryOf g).progress = g.current_amount / g.target_amount * 100)
      ∧ (g.target_amount = 0 → (goalEntryOf g).progress = 0)
      ∧ ((goalEntryOf g).name = g.name
          ∧ (goalEntryOf g).current = g.current_amount
          ∧ (goalEntryOf g).target = g.target_amount) := by
  intro now store user oppFetch g
  have hrun : (dailySummaryRun now store user oppFetch).goal_progress
      = goalProgress store.goals := rfl
  refine ⟨hrun.trans (goalProgress_eq_map store.goals), ?_, ?_, ?_, rfl, rfl, rfl⟩
  · rw [hrun, goalProgress_eq_map]; exact List.length_map store.goals goalEntryOf
  · intro h; simp [goalEntryOf, h]
  · intro h; simp [goalEntryOf, h]

/-- Claim C7, witness: the theorem applied to the 25%-progress goal and
to the zero-target goal. -/
theorem c7_goal_progress_witness :
    (goalEntryOf sampleGoal).progress = 25
    ∧ (goalEntryOf zeroTargetGoal).progress = 0 := by
  constructor
  · have := (c7_goal_progress "d" emptyStore sampleUser oppFetchFail sampleGoal).2.2.1
      (by norm_num [sampleGoal])
    rw [this]; norm_num [sampleGoal]
  · exact (c7_goal_progress "d" emptyStore sampleUser oppFetchFail zeroTargetGoal).2.2.2.1
      (by norm_num [zeroTargetGoal])

/-- Claim C8: the dispatcher attempts delivery for exactly the users
with daily summaries enabled, in order, and the set of users it
processes does not depend on any per-user outcome — so when the
computation, rendering or send fails for one user, every other enabled
user is still attempted; the failing user's error is recorded in the
trace, and the loop returns normally rather than raising (it is a total
function into a trace). -/
theorem c8_dispatcher :
    ∀ (users : List UserPreferencesDB)
      (attempt attempt2 : UserPreferencesDB → Except String Unit)
      (u : UserPreferencesDB) (e : String),
      ((sendDailySummaries users attempt).map Prod.fst
          = (users.filter (fun v => v.daily_summary_enabled)).map (fun v => v.email))
      ∧ ((sendDailySummaries users attempt).map Prod.fst
          = (sendDailySummaries users attempt2).map Prod.fst)
      ∧ ((sendDailySummaries users attempt).length
          = (users.filter (fun v => v.daily_summary_enabled)).length)
      ∧ (u ∈ users.filter (fun v => v.daily_summary_enabled) →
          attempt u = Except.error e →
          (u.email, some e) ∈ sendDailySummaries users attempt) := by
  intro users attempt attempt2 u e
  have hfst : ∀ (a : UserPreferencesDB → Except String Unit) (v : UserPreferencesDB),
      (dispatchOutcome a v).1 = v.email := by
    intro a v
    cases h : a v <;> simp [dispatchOutcome, h]
  have hmap : ∀ a : UserPreferencesDB → Except String Unit,
      (sendDailySummaries users a).map Prod.fst
        = (users.filter (fun v => v.daily_summary_enabled)).map (fun v => v.email) := by
    intro a
    rw [sendDailySummaries_eq_map, List.map_map]
    exact List.map_congr_left (fun v _ => hfst a v)
  refine ⟨hmap attempt, (hmap attempt).trans (hmap attempt2).symm, ?_, ?_⟩
  · rw [sendDailySummaries_eq_map, List.length_map]
  · intro hu hatt
    rw [sendDailySummaries_eq_map]
    have : dispatchOutcome attempt u = (u.email, some e) := by
      simp [dispatchOutcome, hatt]
    exact this ▸ List.mem_map_of_mem (dispatchOutcome attempt) hu

/-- Claim C8, witness: three users of whom two are enabled; the attempt
fails for the second enabled user.  Both enabled users appear in the
trace in order, the failure is recorded, and the disabled user is
skipped. -/
theorem c8_dispatcher_witness :
    sendDailySummaries [sampleUser, sampleUserB, sampleUserOff] attemptFailB
        = [("a@example.com", none), ("b@example.com", some "smtp down")]
    ∧ ("b@example.com", some "smtp down")
        ∈ sendDailySummaries [sampleUser, sampleUserB, sampleUserOff] attemptFailB := by
  constructor
  · rfl
  · have hmem : sampleUserB ∈ ([sampleUser, sampleUserB, sampleUserOff].filter
        (fun v => v.daily_summary_enabled)) := by
      simp [sampleUser, sampleUserB, sampleUserOff]
    have hatt : attemptFailB sampleUserB = Except.error "smtp down" := rfl
    have := (c8_dispatcher [sampleUser, sampleUserB, sampleUserOff] attemptFailB attemptFailB
      sampleUserB "smtp down").2.2.2 hmem hatt
    simpa [sampleUserB] using this

/-- Claim C9, counterexample.  For the summary whose sections are all
empty, the action-items, opportunities, watchlist and goal-progress
blocks each render their explicit placeholder paragraph, but the news
block — whose interpolation at line 534 is the only one without an
`else` branch — renders the empty string: the news header is emitted
with an empty body and no placeholder, contradicting the claim that
every empty section carries a placeholder. -/
theorem c9_news_placeholder_cex :
    emptySummary.news_digest = []
    ∧ newsBlock emptySummary = ""
    ∧ actionItemsBlock emptySummary = "<p>No immediate actions required.</p>"
    ∧ opportunitiesBlock emptySummary = "<p>No new opportunities identified.</p>"
    ∧ alertsBlock emptySummary = "<p>No watchlist alerts today.</p>"
    ∧ goalsBlock emptySummary = "<p>No goals set yet.</p>" :=
  ⟨rfl, rfl, rfl, rfl, rfl, rfl⟩

/-- Claim C9, amended: for every summary the rendered message contains
the six section headers in the fixed order portfolio overview, action
items, opportunities, watchlist alerts, news, goal progress; an empty
action-items, opportunities, watchlist-alerts or goal-progress section
is rendered as an explicit placeholder paragraph, while an empty news
digest renders an empty section body under its header, with no
placeholder. -/
theorem c9_email_sections :
    ∀ s : DailySummary,
      (∃ p0 p1 p2 p3 p4 p5 p6, formatSummaryEmail s
          = p0 ++ hdrOverview ++ p1 ++ hdrActionItems ++ p2 ++ hdrOpportunities ++ p3
            ++ hdrAlerts ++ p4 ++ hdrNews ++ p5 ++ hdrGoals ++ p6)
      ∧ (s.action_items = [] → ∃ a b, formatSummaryEmail s
          = a ++ "<p>No immediate actions required.</p>" ++ b)
      ∧ (s.new_opportunities = [] → ∃ a b, formatSummaryEmail s
          = a ++ "<p>No new opportunities identified.</p>" ++ b)
      ∧ (s.watchlist_alerts = [] → ∃ a b, formatSummaryEmail s
          = a ++ "<p>No watchlist alerts today.</p>" ++ b)
      ∧ (s.goal_progress = [] → ∃ a b, formatSummaryEmail s
          = a ++ "<p>No goals set yet.</p>" ++ b)
      ∧ (s.news_digest = [] → newsBlock s = "") := by
  intro s
  refine ⟨⟨emailHead ++ s.date ++ emailAfterDate, overviewBody s ++ sectionSep,
      "\n            " ++ actionItemsBlock s ++ sectionSep,
      "\n            " ++ opportunitiesBlock s ++ sectionSep,
      "\n            " ++ alertsBlock s ++ sectionSep,
      "\n            " ++ newsBlock s ++ sectionSep,
      "\n            " ++ goalsBlock s ++ emailTail, ?_⟩, ?_, ?_, ?_, ?_, ?_⟩
  · simp only [formatSummaryEmail, String.append_assoc]
  · intro h
    refine ⟨emailHead ++ s.date ++ emailAfterDate ++ hdrOverview ++ overviewBody s
        ++ sectionSep ++ hdrActionItems ++ "\n            ",
      sectionSep ++ hdrOpportunities ++ "\n            " ++ opportunitiesBlock s ++ sectionSep
        ++ hdrAlerts ++ "\n            " ++ alertsBlock s ++ sectionSep
        ++ hdrNews ++ "\n            " ++ newsBlock s ++ sectionSep
        ++ hdrGoals ++ "\n            " ++ goalsBlock s ++ emailTail, ?_⟩
    simp [formatSummaryEmail, actionItemsBlock, h, String.append_assoc]
  · intro h
    refine ⟨emailHead ++ s.date ++ emailAfterDate ++ hdrOverview ++ overviewBody s
        ++ sectionSep ++ hdrActionItems ++ "\n            " ++ actionItemsBlock s
        ++ sectionSep ++ hdrOpportunities ++ "\n            ",
      sectionSep ++ hdrAlerts ++ "\n            " ++ alertsBlock s ++ sectionSep
        ++ hdrNews ++ "\n            " ++ newsBlock s ++ sectionSep
        ++ hdrGoals ++ "\n            " ++ goalsBlock s ++ emailTail, ?_⟩
    simp [formatSummaryEmail, opportunitiesBlock, h, String.append_assoc]
  · intro h
    refine ⟨emailHead ++ s.date ++ emailAfterDate ++ hdrOverview ++ overviewBody s
        ++ sectionSep ++ hdrActionItems ++ "\n            " ++ actionItemsBlock s
        ++ sectionSep ++ hdrOpportunities ++ "\n            " ++ opportunitiesBlock s
        ++ sectionSep ++ hdrAlerts ++ "\n            ",
      sectionSep ++ hdrNews ++ "\n            " ++ newsBlock s ++ sectionSep
        ++ hdrGoals ++ "\n            " ++ goalsBlock s ++ emailTail, ?_⟩
    simp [formatSummaryEmail, alertsBlock, h, String.append_assoc]
  · intro h
    refine ⟨emailHead ++ s.date ++ emailAfterDate ++ hdrOverview ++ overviewBody s
        ++ sectionSep ++ hdrActionItems ++ "\n            " ++ actionItemsBlock s
        ++ sectionSep ++ hdrOpportunities ++ "\n            " ++ opportunitiesBlock s
        ++ sectionSep ++ hdrAlerts ++ "\n            " ++ alertsBlock s
        ++ sectionSep ++ hdrNews ++ "\n            " ++ newsBlock s
        ++ sectionSep ++ hdrGoals ++ "\n            ", emailTail, ?_⟩
    simp [formatSummaryEmail, goalsBlock, h, String.append_assoc]
  · intro h
    simp [newsBlock, h]
    rfl

/-- Claim C9, witness: the amended theorem applied to the all-empty
summary, discharging each emptiness hypothesis. -/
theorem c9_email_sections_witness :
    (∃ a b, formatSummaryEmail emptySummary
        = a ++ "<p>No immediate actions required.</p>" ++ b)
    ∧ (∃ a b, formatSummaryEmail emptySummary
        = a ++ "<p>No new opportunities identified.</p>" ++ b)
    ∧ (∃ a b, formatSummaryEmail emptySummary
        = a ++ "<p>No watchlist alerts today.</p>" ++ b)
    ∧ (∃ a b, formatSummaryEmail emptySummary
        = a ++ "<p>No goals set yet.</p>" ++ b)
    ∧ newsBlock emptySummary = "" :=
  ⟨(c9_email_sections emptySummary).2.1 rfl,
   (c9_email_sections emptySummary).2.2.1 rfl,
   (c9_email_sections emptySummary).2.2.2.1 rfl,
   (c9_email_sections emptySummary).2.2.2.2.1 rfl,
   (c9_email_sections emptySummary).2.2.2.2.2 rfl⟩

/-- Claim C10: with the store contents and timestamp fixed, the daily
summaries generated for any two user-preference records agree on the
date, portfolio value, daily change, daily change percent, action
items, watchlist alerts, news digest and goal progress — the engine
reads the full global holdings, goals and wishlist collections rather
than per-user data, and the user record feeds only the opportunity
request; the final conjunct exhibits a gateway and two users for which
the new-opportunities sections really do differ. -/
theorem c10_user_independence :
    ∀ (now : String) (store : Store)
      (oppFetch : String → List String → Option (List Opportunity))
      (u1 u2 : UserPreferencesDB),
      ((dailySummaryRun now store u1 oppFetch).date
          = (dailySummaryRun now store u2 oppFetch).date)
      ∧ ((dailySummaryRun now store u1 oppFetch).portfolio_value
          = (dailySummaryRun now store u2 oppFetch).portfolio_value)
      ∧ ((dailySummaryRun now store u1 oppFetch).daily_change
          = (dailySummaryRun now store u2 oppFetch).daily_change)
      ∧ ((dailySummaryRun now store u1 oppFetch).daily_change_percent
          = (dailySummaryRun now store u2 oppFetch).daily_change_percent)
      ∧ ((dailySummaryRun now store u1 oppFetch).action_items
          = (dailySummaryRun now store u2 oppFetch).action_items)
      ∧ ((dailySummaryRun now store u1 oppFetch).watchlist_alerts
          = (dailySummaryRun now store u2 oppFetch).watchlist_alerts)
      ∧ ((dailySummaryRun now store u1 oppFetch).news_digest
          = (dailySummaryRun now store u2 oppFetch).news_digest)
      ∧ ((dailySummaryRun now store u1 oppFetch).goal_progress
          = (dailySummaryRun now store u2 oppFetch).goal_progress)
      ∧ (∃ (f : String → List String → Option (List Opportunity))
            (v1 v2 : UserPreferencesDB),
          (dailySummaryRun now store v1 f).new_opportunities
            ≠ (dailySummaryRun now store v2 f).new_opportunities) := by
  intro now store oppFetch u1 u2
  refine ⟨rfl, rfl, rfl, rfl, rfl, rfl, rfl, rfl,
    ⟨oppFetchByProfile, sampleUser, sampleUserB, ?_⟩⟩
  have h1 : (dailySummaryRun now store sampleUser oppFetchByProfile).new_opportunities
      = [sampleOpportunity] := rfl
  have h2 : (dailySummaryRun now store sampleUserB oppFetchByProfile).new_opportunities
      = [] := rfl
  rw [h1, h2]
  simp
